import Mathlib

set_option maxRecDepth 8000

/-- Logic level on a GPIO line, mirroring pigpio HIGH and LOW. -/
inductive Level
| LOW
| HIGH
deriving DecidableEq

/-- Flags for GPIO pin polarity, mirroring the PinPolarity enum of epd17299.py. -/
inductive PinPolarity
| ACTIVE_LOW
| ACTIVE_HIGH
deriving DecidableEq

/-- Flags for SPI ports on the Pi, mirroring the SPIPort enum. -/
inductive SPIPort
| MAIN
| AUXILIARY
deriving DecidableEq

/-- Numeric value of a SPIPort flag, as in the Python enum. -/
def SPIPort.val : SPIPort → Nat
| .MAIN => 0
| .AUXILIARY => 1

/-- Flags for SPI modes, mirroring the SPIMode enum. -/
inductive SPIMode
| MODE_0
| MODE_1
| MODE_2
| MODE_3
deriving DecidableEq

/-- Numeric value of a SPIMode flag, as in the Python enum. -/
def SPIMode.val : SPIMode → Nat
| .MODE_0 => 0
| .MODE_1 => 1
| .MODE_2 => 2
| .MODE_3 => 3

/-- Flags for SPI wire mode, mirroring the SPIWireMode enum. -/
inductive SPIWireMode
| THREE_WIRE
| FOUR_WIRE
deriving DecidableEq

/-- Numeric value of a SPIWireMode flag, as in the Python enum. -/
def SPIWireMode.val : SPIWireMode → Nat
| .THREE_WIRE => 1
| .FOUR_WIRE => 0

/-- Flags for SPI endianness, mirroring the SPIEndian enum. -/
inductive SPIEndian
| MSB_FIRST
| LSB_FIRST
deriving DecidableEq

/-- Numeric value of a SPIEndian flag, as in the Python enum. -/
def SPIEndian.val : SPIEndian → Nat
| .MSB_FIRST => 0
| .LSB_FIRST => 1

/-- First argument of the pi.write calls as it occurs in the source: either a GPIO
pin number, or — in the calls that pass self.reset — the bound method named reset.
The Segment instance stores its reset pin in the attribute rst, so Python attribute
lookup on self.reset finds the reset method on the class, not a pin number; the
model keeps that erroneous argument as a distinct target. -/
inductive Target
| pin (n : Nat)
| resetMethod
deriving DecidableEq

/-- Observable side effects of the driver: GPIO writes, SPI byte transfers, sleeps
in milliseconds, and reads of a busy input pin recording the value read. -/
inductive Event
| write (t : Target) (l : Level)
| spiWrite (data : List Nat)
| sleepMs (ms : Nat)
| readBusy (pin : Nat) (v : Nat)
deriving DecidableEq

/-- set_GPIO_active from the source: drive a pin to its ACTIVE state. -/
def set_GPIO_active (t : Target) (polarity : PinPolarity) : Event :=
  match polarity with
  | .ACTIVE_LOW => .write t .LOW
  | .ACTIVE_HIGH => .write t .HIGH

/-- clear_GPIO_idle from the source: drive a pin to its IDLE state. -/
def clear_GPIO_idle (t : Target) (polarity : PinPolarity) : Event :=
  match polarity with
  | .ACTIVE_LOW => .write t .HIGH
  | .ACTIVE_HIGH => .write t .LOW

/-- The one bus failure the model tracks: pi.spi_write raising an I/O error. -/
inductive IOErr
| ioError
deriving DecidableEq

/-- Result of running a block of driver code: the events it emitted before
returning or raising, and the error it raised, if any. -/
structure Outcome where
  events : List Event
  error : Option IOErr
deriving DecidableEq

/-- Sequencing of two blocks: if the first raises, the second never runs. -/
def Outcome.seq (a b : Outcome) : Outcome :=
  match a.error with
  | some _ => a
  | none => ⟨a.events ++ b.events, b.error⟩

/-- SPIBus.transaction from the source. It is a contextlib.contextmanager
generator with no try/finally around the yield: chip-select is driven ACTIVE
before the yield, and the trailing clear_GPIO_idle call runs only when the body
completes normally — an exception raised in the with-body is thrown into the
generator at the yield point and propagates past the cleanup line. -/
def SPIBus.transaction (cs : Target) (cspol : PinPolarity) (body : Outcome) : Outcome :=
  match body.error with
  | none => ⟨set_GPIO_active cs cspol :: (body.events ++ [clear_GPIO_idle cs cspol]), none⟩
  | some e => ⟨set_GPIO_active cs cspol :: body.events, some e⟩

/-- SPITransaction.write from the source, in a run where pi.spi_write succeeds:
drive the data/command line ACTIVE when the command flag is set and IDLE
otherwise, transfer the bytes, then return the line to IDLE. -/
def SPITransaction.write (dc : Target) (dcpol : PinPolarity) (data : List Nat)
    (command : Bool) : List Event :=
  [if command then set_GPIO_active dc dcpol else clear_GPIO_idle dc dcpol,
   .spiWrite data,
   clear_GPIO_idle dc dcpol]

/-- One call to tx.write in the source: the bytes passed and the command flag. -/
structure WriteCall where
  data : List Nat
  command : Bool
deriving DecidableEq

/-- Run a list of tx.write calls in order. failAt models the bus: the index
(counting spi transfers upward from idx) at which pi.spi_write raises an I/O
error; on that call the data/command line has already been driven but neither the
transfer nor the trailing clear_GPIO_idle runs, and the error propagates. -/
def execWrites (dc : Target) (dcpol : PinPolarity) :
    List WriteCall → Nat → Option Nat → Outcome
| [], _, _ => ⟨[], none⟩
| w :: ws, idx, failAt =>
  if failAt = some idx then
    ⟨[if w.command then set_GPIO_active dc dcpol else clear_GPIO_idle dc dcpol],
     some .ioError⟩
  else
    Outcome.seq ⟨SPITransaction.write dc dcpol w.data w.command, none⟩
      (execWrites dc dcpol ws (idx + 1) failAt)

/-- Error type for the validation the claim attributes to channel opening. The
source defines no such error anywhere; the type exists only so that failing with
InvalidConfig is statable at all. -/
inductive ConfigErr
| invalidConfig
deriving DecidableEq

/-- The flags word computed by SPIBus.__init__ in the source: word size field
zero, MSB first in both directions, three-wire byte count zero, four-wire mode,
the port bit, all three hardware chip-select lines disabled (0b111), chip-select
polarity bits zero, and the mode bits. -/
def SPIBus.flagsWord (bus : SPIPort) (busmode : SPIMode) : Nat :=
  let hwcs := 7
  let cspol := 0
  let threewirebytes := 0
  let wordsize := 0
  wordsize <<< 16 |||
    SPIEndian.MSB_FIRST.val <<< 15 |||
    SPIEndian.MSB_FIRST.val <<< 14 |||
    threewirebytes <<< 10 |||
    SPIWireMode.FOUR_WIRE.val <<< 9 |||
    bus.val <<< 8 |||
    hwcs <<< 5 |||
    cspol <<< 2 |||
    busmode.val

/-- SPIBus.__init__ from the source: stores the speed and computes the flags
word. It performs no validation and never raises; hardware chip-select use, wire
mode, endianness, three-wire byte count and word size are fixed internal
constants, not parameters the caller can set. -/
def SPIBus.init (speed : Nat) (bus : SPIPort) (busmode : SPIMode) :
    Except ConfigErr (Nat × Nat) :=
  .ok (speed, SPIBus.flagsWord bus busmode)

/-- Names of segments, mirroring the Epd17299.SegmentName enum. -/
inductive SegmentName
| M1
| S1
| M2
| S2
deriving DecidableEq

/-- The _lut_vcom1 table of Epd17299.Segment, transcribed from the source. -/
def Segment._lut_vcom1 : List Nat :=
  [0x00, 0x10, 0x10, 0x01, 0x08, 0x01,
   0x00, 0x06, 0x01, 0x06, 0x01, 0x05,
   0x00, 0x08, 0x01, 0x08, 0x01, 0x06,
   0x00, 0x06, 0x01, 0x06, 0x01, 0x05,
   0x00, 0x05, 0x01, 0x1E, 0x0F, 0x06,
   0x00, 0x05, 0x01, 0x1E, 0x0F, 0x01,
   0x00, 0x04, 0x05, 0x08, 0x08, 0x01,
   0x00, 0x00, 0x00, 0x00, 0x00, 0x00,
   0x00, 0x00, 0x00, 0x00, 0x00, 0x00,
   0x00, 0x00, 0x00, 0x00, 0x00, 0x00]

/-- The _lut_ww1 (white-to-white) table of Epd17299.Segment, transcribed from the source. -/
def Segment._lut_ww1 : List Nat :=
  [0x91, 0x10, 0x10, 0x01, 0x08, 0x01,
   0x04, 0x06, 0x01, 0x06, 0x01, 0x05,
   0x84, 0x08, 0x01, 0x08, 0x01, 0x06,
   0x80, 0x06, 0x01, 0x06, 0x01, 0x05,
   0x00, 0x05, 0x01, 0x1E, 0x0F, 0x06,
   0x00, 0x05, 0x01, 0x1E, 0x0F, 0x01,
   0x08, 0x04, 0x05, 0x08, 0x08, 0x01,
   0x00, 0x00, 0x00, 0x00, 0x00, 0x00,
   0x00, 0x00, 0x00, 0x00, 0x00, 0x00,
   0x00, 0x00, 0x00, 0x00, 0x00, 0x00]

/-- The _lut_bw1 (black-to-white) table of Epd17299.Segment, transcribed from the source. -/
def Segment._lut_bw1 : List Nat :=
  [0xA8, 0x10, 0x10, 0x01, 0x08, 0x01,
   0x84, 0x06, 0x01, 0x06, 0x01, 0x05,
   0x84, 0x08, 0x01, 0x08, 0x01, 0x06,
   0x86, 0x06, 0x01, 0x06, 0x01, 0x05,
   0x8C, 0x05, 0x01, 0x1E, 0x0F, 0x06,
   0x8C, 0x05, 0x01, 0x1E, 0x0F, 0x01,
   0xF0, 0x04, 0x05, 0x08, 0x08, 0x01,
   0x00, 0x00, 0x00, 0x00, 0x00, 0x00,
   0x00, 0x00, 0x00, 0x00, 0x00, 0x00,
   0x00, 0x00, 0x00, 0x00, 0x00, 0x00]

/-- The _lut_wb1 (white-to-black) table of Epd17299.Segment, transcribed from the source. -/
def Segment._lut_wb1 : List Nat :=
  [0x91, 0x10, 0x10, 0x01, 0x08, 0x01,
   0x04, 0x06, 0x01, 0x06, 0x01, 0x05,
   0x84, 0x08, 0x01, 0x08, 0x01, 0x06,
   0x80, 0x06, 0x01, 0x06, 0x01, 0x05,
   0x00, 0x05, 0x01, 0x1E, 0x0F, 0x06,
   0x00, 0x05, 0x01, 0x1E, 0x0F, 0x01,
   0x08, 0x04, 0x05, 0x08, 0x08, 0x01,
   0x00, 0x00, 0x00, 0x00, 0x00, 0x00,
   0x00, 0x00, 0x00, 0x00, 0x00, 0x00,
   0x00, 0x00, 0x00, 0x00, 0x00, 0x00]

/-- The _lut_bb1 (black-to-black) table of Epd17299.Segment, transcribed from the source. -/
def Segment._lut_bb1 : List Nat :=
  [0x92, 0x10, 0x10, 0x01, 0x08, 0x01,
   0x80, 0x06, 0x01, 0x06, 0x01, 0x05,
   0x84, 0x08, 0x01, 0x08, 0x01, 0x06,
   0x04, 0x06, 0x01, 0x06, 0x01, 0x05,
   0x00, 0x05, 0x01, 0x1E, 0x0F, 0x06,
   0x00, 0x05, 0x01, 0x1E, 0x0F, 0x01,
   0x01, 0x04, 0x05, 0x08, 0x08, 0x01,
   0x00, 0x00, 0x00, 0x00, 0x00, 0x00,
   0x00, 0x00, 0x00, 0x00, 0x00, 0x00,
   0x00, 0x00, 0x00, 0x00, 0x00, 0x00]

/-- struct.pack of two big-endian unsigned 16-bit values as a byte list, used by
the resolution step; for arguments below 65536 this is the exact byte sequence. -/
def packGtHH (w h : Nat) : List Nat :=
  [w / 256 % 256, w % 256, h / 256 % 256, h % 256]

/-- The tx.write calls of Segment.send_lut in source order: command bytes 0x20
through 0x25, each followed by one table; the 0x25 slot resends _lut_ww1. -/
def lutWrites : List WriteCall :=
  [⟨[0x20], true⟩, ⟨Segment._lut_vcom1, false⟩,
   ⟨[0x21], true⟩, ⟨Segment._lut_ww1, false⟩,
   ⟨[0x22], true⟩, ⟨Segment._lut_bw1, false⟩,
   ⟨[0x23], true⟩, ⟨Segment._lut_wb1, false⟩,
   ⟨[0x24], true⟩, ⟨Segment._lut_bb1, false⟩,
   ⟨[0x25], true⟩, ⟨Segment._lut_ww1, false⟩]

/-- Segment.send_lut from the source: one transaction on the chip-select and
data/command pins of the segment sending the six command and table pairs.
startIdx counts spi transfers already made in the enclosing call, failAt models
the bus as in execWrites. -/
def Segment.send_lut (cs dc : Nat) (startIdx : Nat) (failAt : Option Nat) : Outcome :=
  SPIBus.transaction (.pin cs) .ACTIVE_LOW
    (execWrites (.pin dc) .ACTIVE_LOW lutWrites startIdx failAt)

/-- The tx.write calls of Segment._init_display in source order: panel setting
(0x2f for M1 and S1, 0x23 otherwise); for M1 and M2 the power-setting and
booster soft-start blocks; resolution with width and height packed big-endian;
the DUPSI step and the PLL step, both using command byte 0x15; Vcom and data
interval; TCON; and for M1 and M2 the extra 0xE0 and 0x82 blocks around the
unconditional 0xE3 block. -/
def initWrites (name : SegmentName) (w h : Nat) : List WriteCall :=
  [⟨[0x00], true⟩,
   if name = .M1 ∨ name = .S1 then ⟨[0x2f], false⟩ else ⟨[0x23], false⟩]
  ++ (if name = .M1 ∨ name = .M2 then
        [⟨[0x01], true⟩, ⟨[0x07, 0x17, 0x3F, 0x3F, 0x0D], false⟩] else [])
  ++ (if name = .M1 ∨ name = .M2 then
        [⟨[0x06], true⟩, ⟨[0x17, 0x17, 0x39, 0x17], false⟩] else [])
  ++ [⟨[0x61], true⟩, ⟨packGtHH w h, false⟩,
      ⟨[0x15], true⟩, ⟨[0x20], false⟩,
      ⟨[0x15], true⟩, ⟨[0x08], false⟩,
      ⟨[0x50], true⟩, ⟨[0x31, 0x07], false⟩,
      ⟨[0x60], true⟩, ⟨[0x22], false⟩]
  ++ (if name = .M1 ∨ name = .M2 then [⟨[0xE0], true⟩, ⟨[0x01], false⟩] else [])
  ++ [⟨[0xE3], true⟩, ⟨[0x00], false⟩]
  ++ (if name = .M1 ∨ name = .M2 then [⟨[0x82], true⟩, ⟨[0x1C], false⟩] else [])

/-- The per-segment mutable state the claims touch: the one-shot guard flag,
named _initialized in the source. -/
structure SegState where
  inited : Bool
deriving DecidableEq

/-- Segment._init_display from the source: a no-op when the guard flag is
already set; otherwise the flag is set to true first — before any bus traffic —
and then one transaction runs the configuration writes with, nested inside it,
the send_lut call that opens its own transaction on the same pins. -/
def Segment._init_display (name : SegmentName) (w h cs dc : Nat) (st : SegState)
    (failAt : Option Nat) : SegState × Outcome :=
  if st.inited then (st, ⟨[], none⟩)
  else
    (⟨true⟩,
     SPIBus.transaction (.pin cs) .ACTIVE_LOW
       (Outcome.seq (execWrites (.pin dc) .ACTIVE_LOW (initWrites name w h) 0 failAt)
         (Segment.send_lut cs dc (initWrites name w h).length failAt)))

/-- Segment.reset from the source. Every pi.write call in it passes self.reset,
which is the bound reset method — the pin lives in self.rst — so the writes
target the method object, never the reset GPIO pin. The sleeps are 0.2 s,
0.01 s and 0.2 s. -/
def Segment.reset : List Event :=
  [.write .resetMethod .HIGH, .sleepMs 200,
   .write .resetMethod .LOW, .sleepMs 10,
   .write .resetMethod .HIGH, .sleepMs 200]

/-- Segment.sleep from the source: inside one transaction, command 0x02, a 0.3 s
sleep, command 0x07, data 0xA5, another 0.3 s sleep, then three raw pi.write
calls: LOW to self.reset (the bound method, not the rst pin), LOW to the
data/command pin, and HIGH to the chip-select pin. The transaction exit then
drives chip-select to IDLE, which for ACTIVE_LOW polarity is HIGH again. -/
def Segment.sleep (cs dc : Nat) : List Event :=
  (SPIBus.transaction (.pin cs) .ACTIVE_LOW
    ⟨SPITransaction.write (.pin dc) .ACTIVE_LOW [0x02] true
      ++ [.sleepMs 300]
      ++ SPITransaction.write (.pin dc) .ACTIVE_LOW [0x07] true
      ++ SPITransaction.write (.pin dc) .ACTIVE_LOW [0xA5] false
      ++ [.sleepMs 300,
          .write .resetMethod .LOW,
          .write (.pin dc) .LOW,
          .write (.pin cs) .HIGH],
      none⟩).events

/-- The tx.write calls of Segment.clear in source order: command 0x10 then
width * height bytes of 0xFF — the source multiplies the single byte by
width * height with no division by 8 — and command 0x13 then width * height
bytes of 0x00. -/
def clearWrites (w h : Nat) : List WriteCall :=
  [⟨[0x10], true⟩, ⟨List.replicate (w * h) 0xFF, false⟩,
   ⟨[0x13], true⟩, ⟨List.replicate (w * h) 0x00, false⟩]

/-- Segment.clear from the source: one transaction running clearWrites on a
healthy bus. -/
def Segment.clear (cs dc w h : Nat) : Outcome :=
  SPIBus.transaction (.pin cs) .ACTIVE_LOW
    (execWrites (.pin dc) .ACTIVE_LOW (clearWrites w h) 0 none)

/-- Segment.wait_on_busy from the source, with the busy line modelled by the
number of polls that read busy (1) before the first idle (0) read: each loop
iteration opens a fresh transaction, sends command 0x71, and reads the busy pin. -/
def Segment.wait_on_busy (cs dc busy : Nat) : Nat → List Event
| 0 =>
  (SPIBus.transaction (.pin cs) .ACTIVE_LOW
    ⟨SPITransaction.write (.pin dc) .ACTIVE_LOW [0x71] true ++ [.readBusy busy 0],
     none⟩).events
| n + 1 =>
  (SPIBus.transaction (.pin cs) .ACTIVE_LOW
    ⟨SPITransaction.write (.pin dc) .ACTIVE_LOW [0x71] true ++ [.readBusy busy 1],
     none⟩).events
  ++ Segment.wait_on_busy cs dc busy n

/-- Segment.turn_on from the source: one transaction sending, for M1 and M2
only, command 0x04, then a 0.3 s sleep, then command 0x12; afterwards
wait_on_busy. -/
def Segment.turn_on (name : SegmentName) (cs dc busy busyN : Nat) : List Event :=
  (SPIBus.transaction (.pin cs) .ACTIVE_LOW
    ⟨(if name = .M1 ∨ name = .M2 then
        SPITransaction.write (.pin dc) .ACTIVE_LOW [0x04] true else [])
      ++ [.sleepMs 300]
      ++ SPITransaction.write (.pin dc) .ACTIVE_LOW [0x12] true,
     none⟩).events
  ++ Segment.wait_on_busy cs dc busy busyN

/-- Epd17299.turn_on_display from the source: turn_on on M1, M2, S1, S2 in that
order with the pins fixed in Epd17299.__init__ (M1: cs 8, dc 13, busy 5;
M2: cs 17, dc 22, busy 27; S1: cs 7, dc 13, busy 19; S2: cs 18, dc 22, busy 24);
the four arguments give the busy-poll counts for the four segments. -/
def Epd17299.turn_on_display (n1 n2 n3 n4 : Nat) : List Event :=
  Segment.turn_on .M1 8 13 5 n1
  ++ Segment.turn_on .M2 17 22 27 n2
  ++ Segment.turn_on .S1 7 13 19 n3
  ++ Segment.turn_on .S2 18 22 24 n4

/-- Epd17299.clear from the source: clear on M1, M2, S1, S2 in that order with
the geometry fixed in Epd17299.__init__ (M1 and S2 are 648 by 492, S1 and M2
are 656 by 492), then one turn_on_display pass. -/
def Epd17299.clear (n1 n2 n3 n4 : Nat) : List Event :=
  (Segment.clear 8 13 648 492).events
  ++ (Segment.clear 17 22 656 492).events
  ++ (Segment.clear 7 13 656 492).events
  ++ (Segment.clear 18 22 648 492).events
  ++ Epd17299.turn_on_display n1 n2 n3 n4

/-- The one Python error Segment.display can raise in the source. -/
inductive PyErr
| attributeError
deriving DecidableEq

/-- Segment.display from the source: its body reads self.canvas, an attribute no
code in the file ever assigns, so every call raises AttributeError before any
pin or bus operation; even past that point the body only builds two local
one-bit channel images and issues no writes. -/
def Segment.display : Except PyErr (List Event) := .error .attributeError

/-- Epd17299.display from the source: a bare pass statement that takes no image
argument and performs no operation. -/
def Epd17299.display : List Event := []

/-- The spi transfer payloads of a trace, in order. -/
def spiPayloads : List Event → List (List Nat)
| [] => []
| .spiWrite d :: es => d :: spiPayloads es
| _ :: es => spiPayloads es

/-- The sleeps of a trace, in order, in milliseconds. -/
def sleepsOf : List Event → List Nat
| [] => []
| .sleepMs m :: es => m :: sleepsOf es
| _ :: es => sleepsOf es

/-- The level a target was last driven to in a trace, if any write targeted it. -/
def lastWrite (t : Target) : List Event → Option Level
| [] => none
| e :: es =>
  match lastWrite t es with
  | some l => some l
  | none =>
    match e with
    | .write u l => if u = t then some l else none
    | _ => none

/-- A transaction propagates exactly the error of its body. -/
theorem transaction_error (cs : Target) (cspol : PinPolarity) (b : Outcome) :
    (SPIBus.transaction cs cspol b).error = b.error := by
  rcases b with ⟨evs, err⟩
  rcases err with _ | e <;> rfl

/-- A transaction always emits at least the chip-select assert event. -/
theorem transaction_events_ne_nil (cs : Target) (cspol : PinPolarity) (b : Outcome) :
    (SPIBus.transaction cs cspol b).events ≠ [] := by
  rcases b with ⟨evs, err⟩
  rcases err with _ | e <;> simp [SPIBus.transaction]

/-- Sequencing keeps the error of a failed first block. -/
theorem seq_error_of_some (a b : Outcome) (e : IOErr) (h : a.error = some e) :
    (Outcome.seq a b).error = some e := by
  rcases a with ⟨evs, err⟩
  simp only at h
  simp [Outcome.seq, h]

/-- Sequencing after a clean first block has the error of the second block. -/
theorem seq_error_of_none (a b : Outcome) (h : a.error = none) :
    (Outcome.seq a b).error = b.error := by
  rcases a with ⟨evs, err⟩
  simp only at h
  simp [Outcome.seq, h]

/-- A run of tx.write calls raises exactly when the failing transfer index falls
inside the range of transfers the run performs. -/
theorem execWrites_error (dc : Target) (dcpol : PinPolarity) (ws : List WriteCall)
    (idx m : Nat) :
    (execWrites dc dcpol ws idx (some m)).error =
      if idx ≤ m ∧ m < idx + ws.length then some .ioError else none := by
  induction ws generalizing idx with
  | nil =>
    simp only [List.length_nil]
    rw [if_neg (by omega)]
    rfl
  | cons w ws ih =>
    by_cases hm : m = idx
    · subst hm
      simp only [List.length_cons]
      rw [if_pos (by omega)]
      simp [execWrites]
    · have hne : ¬ (some m = some idx) := by simp [hm]
      simp only [execWrites, if_neg hne]
      rw [seq_error_of_none _ _ rfl, ih (idx + 1)]
      simp only [List.length_cons]
      by_cases hin : idx + 1 ≤ m ∧ m < idx + 1 + ws.length
      · rw [if_pos hin, if_pos (by omega)]
      · rw [if_neg hin, if_neg (by omega)]

/-- A run of tx.write calls on a healthy bus never raises. -/
theorem execWrites_error_none (dc : Target) (dcpol : PinPolarity) (ws : List WriteCall)
    (idx : Nat) :
    (execWrites dc dcpol ws idx none).error = none := by
  induction ws generalizing idx with
  | nil => rfl
  | cons w ws ih =>
    simp only [execWrites, reduceCtorEq, if_false]
    rw [seq_error_of_none _ _ rfl]
    exact ih (idx + 1)

/-- Claim C1: refuted on the source. When a write inside the transaction body
raises — here the body drove the data/command line and then the transfer failed —
the transaction trace asserts chip-select once and never returns it to IDLE: the
clear_GPIO_idle line after the yield of the contextmanager generator is skipped
because there is no try/finally around the yield. -/
theorem c1_cs_left_asserted_on_error :
    (SPIBus.transaction (.pin 8) .ACTIVE_LOW
        ⟨[set_GPIO_active (.pin 13) .ACTIVE_LOW], some .ioError⟩).events.count
        (clear_GPIO_idle (.pin 8) .ACTIVE_LOW) = 0 ∧
    (SPIBus.transaction (.pin 8) .ACTIVE_LOW
        ⟨[set_GPIO_active (.pin 13) .ACTIVE_LOW], some .ioError⟩).events.count
        (set_GPIO_active (.pin 8) .ACTIVE_LOW) = 1 := by
  decide

/-- Claim C3: refuted on the source. Segment.reset performs the HIGH, 200 ms,
LOW, 10 ms, HIGH, 200 ms sequence, but every write in it targets the bound reset
method passed by mistake where a pin number is expected, so no GPIO pin — in
particular not the rst pin of any segment — is ever driven. -/
theorem c3_reset_never_drives_rst_pin :
    (∀ n : Nat, ∀ l : Level, Event.write (.pin n) l ∉ Segment.reset) ∧
    Event.write .resetMethod .HIGH ∈ Segment.reset ∧
    sleepsOf Segment.reset = [200, 10, 200] := by
  refine ⟨?_, by decide, by decide⟩
  intro n l
  simp [Segment.reset]

/-- Claim C5: refuted on the source. Opening on the AUXILIARY port with clock
mode 1 or 3 succeeds: SPIBus.__init__ validates nothing and returns the encoded
flags word. -/
theorem c5_aux_bad_modes_accepted :
    SPIBus.init 100000 .AUXILIARY .MODE_1 = .ok (100000, 481) ∧
    SPIBus.init 100000 .AUXILIARY .MODE_3 = .ok (100000, 483) := by
  refine ⟨rfl, rfl⟩

/-- Claim C5 amended: the constructor performs no validation and never fails;
every port and mode combination is accepted, and the hardware chip-select, wire
mode, endianness and word size fields of the flags word are fixed constants not
taken from the caller, so the claimed invalid configurations cannot even be
requested. -/
theorem c5_init_never_fails (speed : Nat) (bus : SPIPort) (busmode : SPIMode) :
    SPIBus.init speed bus busmode = .ok (speed, SPIBus.flagsWord bus busmode) ∧
    SPIBus.flagsWord bus busmode = bus.val * 256 + 224 + busmode.val := by
  refine ⟨rfl, ?_⟩
  cases bus <;> cases busmode <;> rfl

/-- Claim C9: refuted on the source. The display method of the panel emits no
events at all, so no segment receives any plane data on the bus. -/
theorem c9_display_sends_nothing :
    Epd17299.display = [] ∧ spiPayloads Epd17299.display = [] := by
  decide

/-- Claim C9 amended: Epd17299.display is an unimplemented stub that takes no
image and performs no operation, and Segment.display raises AttributeError on
the undefined canvas attribute before any bus write, so no plane data reaches
any segment. -/
theorem c9_display_stub :
    spiPayloads Epd17299.display = [] ∧
    Segment.display = Except.error PyErr.attributeError := by
  refine ⟨rfl, rfl⟩

/-- Unfolding of _init_display when the guard flag is clear. -/
theorem init_display_false (name : SegmentName) (w h cs dc : Nat) (failAt : Option Nat) :
    Segment._init_display name w h cs dc ⟨false⟩ failAt =
      (⟨true⟩,
       SPIBus.transaction (.pin cs) .ACTIVE_LOW
         (Outcome.seq (execWrites (.pin dc) .ACTIVE_LOW (initWrites name w h) 0 failAt)
           (Segment.send_lut cs dc (initWrites name w h).length failAt))) := rfl

/-- Unfolding of _init_display when the guard flag is already set. -/
theorem init_display_true (name : SegmentName) (w h cs dc : Nat) (failAt : Option Nat) :
    Segment._init_display name w h cs dc ⟨true⟩ failAt = (⟨true⟩, ⟨[], none⟩) := rfl

/-- Claim C4: refuted on the source. With the flag clear before the call and the
bus failing on the fourth transfer of the configuration sequence, the call
raises, yet afterwards the flag reads true — not its pre-call value false —
because _init_display sets it before opening the transaction. -/
theorem c4_flag_flips_on_failed_init :
    (⟨false⟩ : SegState).inited = false ∧
    ((Segment._init_display .M1 648 492 8 13 ⟨false⟩ (some 3)).1).inited = true ∧
    ((Segment._init_display .M1 648 492 8 13 ⟨false⟩ (some 3)).2).error = some .ioError := by
  refine ⟨rfl, rfl, ?_⟩
  show (SPIBus.transaction (Target.pin 8) PinPolarity.ACTIVE_LOW
      (Outcome.seq
        (execWrites (Target.pin 13) PinPolarity.ACTIVE_LOW (initWrites .M1 648 492) 0 (some 3))
        (Segment.send_lut 8 13 (initWrites .M1 648 492).length (some 3)))).error =
    some IOErr.ioError
  rw [transaction_error]
  refine seq_error_of_some _ _ _ ?_
  have hlen : (initWrites SegmentName.M1 648 492).length = 22 := rfl
  rw [execWrites_error, if_pos (by omega)]

/-- Claim C4 amended: a bus I/O error at any step of the configuration sequence
propagates immediately, but the guard flag was already set to true at entry, so
after a failed first call the flag is true, not the value it had before the
call. -/
theorem c4_error_propagates_flag_already_set (name : SegmentName) (w h cs dc k : Nat)
    (hk : k < (initWrites name w h).length + lutWrites.length) :
    ((Segment._init_display name w h cs dc ⟨false⟩ (some k)).1).inited = true ∧
    ((Segment._init_display name w h cs dc ⟨false⟩ (some k)).2).error = some .ioError := by
  refine ⟨rfl, ?_⟩
  show (SPIBus.transaction (Target.pin cs) PinPolarity.ACTIVE_LOW
      (Outcome.seq
        (execWrites (Target.pin dc) PinPolarity.ACTIVE_LOW (initWrites name w h) 0 (some k))
        (Segment.send_lut cs dc (initWrites name w h).length (some k)))).error =
    some IOErr.ioError
  rw [transaction_error]
  rcases Nat.lt_or_ge k (initWrites name w h).length with hlt | hge
  · exact seq_error_of_some _ _ _ (by rw [execWrites_error, if_pos (by omega)])
  · rw [seq_error_of_none _ _ (by rw [execWrites_error, if_neg (by omega)])]
    rw [Segment.send_lut, transaction_error, execWrites_error, if_pos (by omega)]

/-- Witness for the amended C4 theorem at segment M1 with a failure on the
fourth transfer. -/
theorem c4_error_propagates_flag_already_set_witness :
    3 < (initWrites .M1 648 492).length + lutWrites.length ∧
    ((Segment._init_display .M1 648 492 8 13 ⟨false⟩ (some 3)).1).inited = true ∧
    ((Segment._init_display .M1 648 492 8 13 ⟨false⟩ (some 3)).2).error = some .ioError := by
  refine ⟨by decide, ?_, ?_⟩
  · exact (c4_error_propagates_flag_already_set .M1 648 492 8 13 3 (by decide)).1
  · exact (c4_error_propagates_flag_already_set .M1 648 492 8 13 3 (by decide)).2

/-- Claim C6: confirmed. A second _init_display call on the same segment without
an intervening reset returns at the guard: same state, no events, no error —
while the first call sent a nonempty trace and completed without error. -/
theorem c6_second_init_is_noop (name : SegmentName) (w h cs dc : Nat)
    (failAt : Option Nat) :
    Segment._init_display name w h cs dc
        (Segment._init_display name w h cs dc ⟨false⟩ none).1 failAt =
      ((Segment._init_display name w h cs dc ⟨false⟩ none).1, ⟨[], none⟩) ∧
    (Segment._init_display name w h cs dc ⟨false⟩ none).2.events ≠ [] ∧
    (Segment._init_display name w h cs dc ⟨false⟩ none).2.error = none := by
  refine ⟨init_display_true name w h cs dc failAt, transaction_events_ne_nil _ _ _, ?_⟩
  show (SPIBus.transaction (Target.pin cs) PinPolarity.ACTIVE_LOW
      (Outcome.seq
        (execWrites (Target.pin dc) PinPolarity.ACTIVE_LOW (initWrites name w h) 0 none)
        (Segment.send_lut cs dc (initWrites name w h).length none))).error = none
  rw [transaction_error, seq_error_of_none _ _ (execWrites_error_none _ _ _ _)]
  rw [Segment.send_lut, transaction_error]
  exact execWrites_error_none _ _ _ _

/-- Claim C7: confirmed. The LUT upload sends exactly six command and table
pairs with command bytes 0x20 through 0x25 in increasing order; the tables are
VCOM, white-to-white, black-to-white, white-to-black, black-to-black, and the
white-to-white table again in the sixth slot, each exactly 60 bytes. -/
theorem c7_lut_upload (cs dc : Nat) :
    spiPayloads (Segment.send_lut cs dc 0 none).events =
      [[0x20], Segment._lut_vcom1, [0x21], Segment._lut_ww1, [0x22], Segment._lut_bw1,
       [0x23], Segment._lut_wb1, [0x24], Segment._lut_bb1, [0x25], Segment._lut_ww1] ∧
    (lutWrites.filter (fun c => c.command)).map (fun c => c.data) =
      [[0x20], [0x21], [0x22], [0x23], [0x24], [0x25]] ∧
    (lutWrites.filter (fun c => !c.command)).map (fun c => c.data) =
      [Segment._lut_vcom1, Segment._lut_ww1, Segment._lut_bw1, Segment._lut_wb1,
       Segment._lut_bb1, Segment._lut_ww1] ∧
    Segment._lut_vcom1.length = 60 ∧ Segment._lut_ww1.length = 60 ∧
    Segment._lut_bw1.length = 60 ∧ Segment._lut_wb1.length = 60 ∧
    Segment._lut_bb1.length = 60 := by
  refine ⟨rfl, rfl, rfl, rfl, rfl, rfl, rfl, rfl⟩

/-- Claim C8: refuted at the pins of segment M1 (cs 8, dc 13, rst 6). After
sleep the chip-select pin was last driven HIGH — the in-body HIGH write and then
the transaction exit — and the reset pin was never driven at all, so the three
output pins do not all read LOW. -/
theorem c8_pins_not_all_low :
    lastWrite (.pin 8) (Segment.sleep 8 13) = some .HIGH ∧
    lastWrite (.pin 6) (Segment.sleep 8 13) = none ∧
    lastWrite (.pin 13) (Segment.sleep 8 13) = some .LOW := by
  decide

/-- Claim C8 amended: sleep sends command 0x02, waits 300 ms, sends command 0x07
with data byte 0xA5, waits 300 ms, then writes LOW to the reset method attribute
(not the rst pin, which is left undriven), LOW to the data/command pin, and HIGH
to the chip-select pin; the transaction exit drives chip-select HIGH once more,
so chip-select reads HIGH, not LOW, after the call. -/
theorem c8_sleep_trace (cs dc : Nat) :
    Segment.sleep cs dc =
      [Event.write (.pin cs) .LOW,
       Event.write (.pin dc) .LOW, Event.spiWrite [0x02], Event.write (.pin dc) .HIGH,
       Event.sleepMs 300,
       Event.write (.pin dc) .LOW, Event.spiWrite [0x07], Event.write (.pin dc) .HIGH,
       Event.write (.pin dc) .HIGH, Event.spiWrite [0xA5], Event.write (.pin dc) .HIGH,
       Event.sleepMs 300,
       Event.write .resetMethod .LOW,
       Event.write (.pin dc) .LOW,
       Event.write (.pin cs) .HIGH,
       Event.write (.pin cs) .HIGH] ∧
    spiPayloads (Segment.sleep cs dc) = [[0x02], [0x07], [0xA5]] ∧
    sleepsOf (Segment.sleep cs dc) = [300, 300] := by
  refine ⟨rfl, rfl, rfl⟩

/-- Claim C10: confirmed. In every segment configuration sequence the DUSPI step
and the PLL step are adjacent writes using the same command byte 0x15 with
parameter bytes 0x20 and 0x08 respectively; 0x15 is sent as a command exactly
twice and no distinct PLL command byte such as 0x30 is ever sent. -/
theorem c10_dupsi_pll_share_command_byte (name : SegmentName) (w h : Nat) :
    (∃ k, ((initWrites name w h).drop k).take 4 =
        [⟨[0x15], true⟩, ⟨[0x20], false⟩, ⟨[0x15], true⟩, ⟨[0x08], false⟩]) ∧
    (((initWrites name w h).filter (fun c => c.command)).map (fun c => c.data)).count [0x15]
        = 2 ∧
    [0x30] ∉ ((initWrites name w h).filter (fun c => c.command)).map (fun c => c.data) := by
  cases name
  · exact ⟨⟨8, rfl⟩, rfl, by simp [initWrites]⟩
  · exact ⟨⟨4, rfl⟩, rfl, by simp [initWrites]⟩
  · exact ⟨⟨8, rfl⟩, rfl, by simp [initWrites]⟩
  · exact ⟨⟨4, rfl⟩, rfl, by simp [initWrites]⟩

/-- Claim C2: the payload sizes are refuted on the source. Clearing the panel
writes, per segment, command 0x10 with width times height bytes of 0xFF and
command 0x13 with width times height bytes of 0x00 — the source omits the
division by 8 of a packed one-bit plane — then one turn-on pass per segment.
For the 648 by 492 segments that is 318816 bytes, not the claimed 39852. -/
theorem c2_clear_payload_sizes :
    spiPayloads (Epd17299.clear 0 0 0 0) =
      [[0x10], List.replicate (648 * 492) 0xFF, [0x13], List.replicate (648 * 492) 0x00,
       [0x10], List.replicate (656 * 492) 0xFF, [0x13], List.replicate (656 * 492) 0x00,
       [0x10], List.replicate (656 * 492) 0xFF, [0x13], List.replicate (656 * 492) 0x00,
       [0x10], List.replicate (648 * 492) 0xFF, [0x13], List.replicate (648 * 492) 0x00,
       [0x04], [0x12], [0x71],
       [0x04], [0x12], [0x71],
       [0x12], [0x71],
       [0x12], [0x71]] ∧
    (List.replicate (648 * 492) (0xFF : Nat)).length = 648 * 492 ∧
    648 * 492 ≠ 648 * 492 / 8 := by
  refine ⟨rfl, List.length_replicate _ _, by norm_num⟩
